import Mathlib

set_option maxRecDepth 100000

/-!
Verification development for the crypto-signal-bot analysis core
(`src/analysis/indicators.py`, `src/analysis/support_resistance.py`,
`src/analysis/signals.py`).

Modelling conventions:
* Python floats are modelled as exact rationals (`ℚ`).
* A pandas DataFrame of OHLCV rows is modelled as a `List Candle` in
  ascending time order.
* The impure `datetime.now()` call inside `analyze` is modelled as an
  explicit clock argument (`now : ℕ`) applied to the otherwise pure body.
* Reason/warning f-strings are modelled as inductive constructors carrying
  the numeric payloads that the Python code interpolates into the string.
* `round(x, n)` (Python round-half-even on binary floats) is modelled as
  exact rational rounding `roundTo`; no verified property depends on a
  half-way rounding case.
-/

namespace CryptoBot

/-- Last element of a rational list, 0 when empty (the empty case is never
reached by callers, which guard on length first). -/
def lastD (l : List ℚ) : ℚ := (l.getLast?).getD 0

/-- Second to last element, 0 when absent. -/
def secondLastD (l : List ℚ) : ℚ := lastD l.dropLast

/-- Minimum of a list, 0 when empty (callers guard on nonemptiness). -/
def minD : List ℚ → ℚ
  | [] => 0
  | x :: xs => xs.foldl min x

/-- Maximum of a list, 0 when empty (callers guard on nonemptiness). -/
def maxD : List ℚ → ℚ
  | [] => 0
  | x :: xs => xs.foldl max x

/-- Python `round(x, d)` modelled as exact rational rounding. -/
def roundTo (d : ℕ) (x : ℚ) : ℚ := ((round (x * 10 ^ d) : ℤ) : ℚ) / 10 ^ d

/-- One OHLCV candle (timestamps are irrelevant to the analysis core and
are omitted; candle order models ascending time). -/
structure Candle where
  open_ : ℚ
  high : ℚ
  low : ℚ
  close : ℚ
  volume : ℚ
deriving DecidableEq

/-- Closing prices of a candle series. -/
def closesOf (df : List Candle) : List ℚ := df.map Candle.close

/-- Modelled from the spec: `ta.ema` of pandas-ta is not under `src/`.
Spec 4.1: "standard exponential moving average; first `period-1` points
undefined".  Seeded with the SMA of the first `period` values, then
`e = α·x + (1-α)·e` with `α = 2/(period+1)`. -/
def emaRun (alpha : ℚ) (e : ℚ) : List ℚ → List ℚ
  | [] => []
  | x :: xs =>
    let e2 := alpha * x + (1 - alpha) * e
    e2 :: emaRun alpha e2 xs

/-- Modelled from the spec: full EMA series; `none` marks the undefined
(NaN) warm-up prefix. -/
def ta_ema (period : ℕ) (xs : List ℚ) : List (Option ℚ) :=
  if period = 0 ∨ xs.length < period then xs.map (fun _ => none)
  else
    let seed := (xs.take period).sum / period
    let alpha : ℚ := 2 / ((period : ℚ) + 1)
    (List.replicate (period - 1) none) ++
      (some seed :: (emaRun alpha seed (xs.drop period)).map some)

/-- Last value of an EMA series (the `.iloc[-1]` access). -/
def emaLast (period : ℕ) (xs : List ℚ) : Option ℚ :=
  ((ta_ema period xs).getLast?).getD none

/-- Last EMA value defaulted to 0 (never hit on the ≥200-candle paths). -/
def emaLastD (period : ℕ) (xs : List ℚ) : ℚ := (emaLast period xs).getD 0

/-- Modelled from the spec: Wilder running moving average (RMA) used by
RSI and ATR, seeded with the SMA of the first `period` values. -/
def rmaRun (period : ℚ) (e : ℚ) : List ℚ → ℚ
  | [] => e
  | x :: xs => rmaRun period ((e * (period - 1) + x) / period) xs

/-- Modelled from the spec: last value of the Wilder RMA, 0 when the
series is shorter than `period` (callers guard on length). -/
def rmaLast (period : ℕ) (xs : List ℚ) : ℚ :=
  if period = 0 ∨ xs.length < period then 0
  else rmaRun (period : ℚ) ((xs.take period).sum / period) (xs.drop period)

/-- Modelled from the spec: `ta.rsi` of pandas-ta is not under `src/`.
Spec 4.1: "Wilder-style relative strength index, bounded to [0,100]; a
constant series yields 50". -/
def ta_rsi_last (period : ℕ) (closes : List ℚ) : Option ℚ :=
  if closes.length < period + 1 then none
  else
    let diffs := List.zipWith (fun a b => a - b) (closes.drop 1) closes
    let gains := diffs.map (fun d => max d 0)
    let losses := diffs.map (fun d => max (-d) 0)
    let avgGain := rmaLast period gains
    let avgLoss := rmaLast period losses
    some (if avgLoss = 0 then (if avgGain = 0 then 50 else 100)
          else 100 - 100 / (1 + avgGain / avgLoss))

/-- True ranges after the first candle: each uses the previous close. -/
def trRun (prev : Candle) : List Candle → List ℚ
  | [] => []
  | c :: cs =>
    max (c.high - c.low) (max (abs (c.high - prev.close)) (abs (c.low - prev.close)))
      :: trRun c cs

/-- Modelled from the spec: true-range series (first element has no
previous close, so it is plain high − low). -/
def trueRanges : List Candle → List ℚ
  | [] => []
  | c :: cs => (c.high - c.low) :: trRun c cs

/-- Modelled from the spec: `ta.atr` of pandas-ta is not under `src/`.
Spec 4.1: "average true range from high/low/close triplets" (Wilder RMA
of the true range). -/
def ta_atr_last (period : ℕ) (df : List Candle) : Option ℚ :=
  if df.length < period + 1 then none
  else some (rmaLast period (trueRanges df))

/-- Modelled from the spec: `ta.sma` of pandas-ta is not under `src/`.
Rolling mean; last value only, `none` while the window is unfilled. -/
def ta_sma_last (period : ℕ) (xs : List ℚ) : Option ℚ :=
  if period = 0 ∨ xs.length < period then none
  else some ((xs.drop (xs.length - period)).sum / period)

inductive MACDStatus where
  | bullish
  | bearish
  | neutral
deriving DecidableEq

inductive CrossDir where
  | bullish
  | bearish
deriving DecidableEq

/-- The dict returned by `calculate_macd` (`indicators.py`). -/
structure MACDData where
  line : ℚ
  signal : ℚ
  histogram : ℚ
  prev_histogram : ℚ
  status : MACDStatus
  crossover : Option CrossDir
deriving DecidableEq

/-- `calculate_macd` (`indicators.py` lines 84-138) with the pandas-ta
`ta.macd` internals modelled from the spec (line = EMA fast − EMA slow,
signal = EMA of the line, histogram = line − signal).  The Python
`else 0` column fallbacks and NaN warm-up rows are modelled by `getD 0`
defaults; they are unreachable on the ≥200-candle path. -/
def calculate_macd (closes : List ℚ) : MACDData :=
  let emaFast := ta_ema 12 closes
  let emaSlow := ta_ema 26 closes
  let lineOpts := List.zipWith
    (fun a b => match a, b with
      | some x, some y => some (x - y)
      | _, _ => none) emaFast emaSlow
  let lineVals := lineOpts.reduceOption
  let sigVals := (ta_ema 9 lineVals).reduceOption
  let macd_line := lastD lineVals
  let signal_line := lastD sigVals
  let histogram := macd_line - signal_line
  let prev_line := secondLastD lineVals
  let prev_signal := secondLastD sigVals
  let prev_histogram := prev_line - prev_signal
  let status :=
    if macd_line > signal_line ∧ histogram > prev_histogram then MACDStatus.bullish
    else if macd_line < signal_line ∧ histogram < prev_histogram then MACDStatus.bearish
    else MACDStatus.neutral
  let crossover :=
    if macd_line > signal_line ∧ prev_line ≤ prev_signal then some CrossDir.bullish
    else if macd_line < signal_line ∧ prev_line ≥ prev_signal then some CrossDir.bearish
    else none
  { line := roundTo 8 macd_line
    signal := roundTo 8 signal_line
    histogram := roundTo 8 histogram
    prev_histogram := roundTo 8 prev_histogram
    status := status
    crossover := crossover }

inductive Trend where
  | strong_up
  | weak_up
  | strong_down
  | weak_down
  | ranging
deriving DecidableEq

/-- The trend classification core of `calculate_ema_trend`
(`indicators.py` lines 167-188): the exact if/elif chain on the current
close versus the three EMA values (Python chained comparisons are
conjunctions). -/
def trendClassify (p e20 e50 e200 : ℚ) : Trend × ℕ :=
  if p > e20 ∧ e20 > e50 ∧ e50 > e200 then (Trend.strong_up, 100)
  else if p > e50 ∧ e20 < e50 then (Trend.weak_up, 60)
  else if p > e50 then (Trend.weak_up, 70)
  else if p < e20 ∧ e20 < e50 ∧ e50 < e200 then (Trend.strong_down, 0)
  else if p < e50 ∧ e20 > e50 then (Trend.weak_down, 40)
  else if p < e50 then (Trend.weak_down, 30)
  else (Trend.ranging, 50)

/-- The spec 4.2 priority table, written from the spec text: rules 1-6 as
(predicate, result) rows; rule 7 "else → ranging, score 50" is the
default of `firstTrendMatch`. -/
def trendSpecRules : List ((ℚ → ℚ → ℚ → ℚ → Bool) × (Trend × ℕ)) :=
  [ (fun p e20 e50 e200 => decide (p > e20 ∧ e20 > e50 ∧ e50 > e200), (Trend.strong_up, 100))
  , (fun p e20 e50 _ => decide (p > e50 ∧ e20 < e50), (Trend.weak_up, 60))
  , (fun p _ e50 _ => decide (p > e50), (Trend.weak_up, 70))
  , (fun p e20 e50 e200 => decide (p < e20 ∧ e20 < e50 ∧ e50 < e200), (Trend.strong_down, 0))
  , (fun p e20 e50 _ => decide (p < e50 ∧ e20 > e50), (Trend.weak_down, 40))
  , (fun p _ e50 _ => decide (p < e50), (Trend.weak_down, 30)) ]

/-- First-match evaluation of a spec 4.2 style rule table. -/
def firstTrendMatch (p e20 e50 e200 : ℚ) :
    List ((ℚ → ℚ → ℚ → ℚ → Bool) × (Trend × ℕ)) → Trend × ℕ
  | [] => (Trend.ranging, 50)
  | r :: rs => if r.1 p e20 e50 e200 then r.2 else firstTrendMatch p e20 e50 e200 rs

/-- Spec 4.2 trend classification: the priority table evaluated first
match wins, with the spec substitution "ema200 substituted by ema50 if
undefined" applied by the caller. -/
def trendSpecTable (p e20 e50 e200 : ℚ) : Trend × ℕ :=
  firstTrendMatch p e20 e50 e200 trendSpecRules

/-- The dict returned by `calculate_ema_trend` (`indicators.py`). -/
structure EmaTrendData where
  ema20 : ℚ
  ema50 : ℚ
  ema200 : ℚ
  trend : Trend
  trend_score : ℕ
  price_vs_ema20 : ℚ
  price_vs_ema50 : ℚ
  price_vs_ema200 : ℚ
deriving DecidableEq

/-- `calculate_ema_trend` (`indicators.py` lines 141-199).  The explicit
`pd.isna(ema200.iloc[-1])` fallback to ema50 is modelled by `Option.getD`;
the ema20/ema50 warm-up NaNs (not handled by the source) are defaulted to
0 and are unreachable on the ≥200-candle path. -/
def calculate_ema_trend (df : List Candle) : EmaTrendData :=
  let closes := closesOf df
  let ema20_val := emaLastD 20 closes
  let ema50_val := emaLastD 50 closes
  let ema200_val := (emaLast 200 closes).getD ema50_val
  let current_price := lastD closes
  let tr := trendClassify current_price ema20_val ema50_val ema200_val
  { ema20 := roundTo 8 ema20_val
    ema50 := roundTo 8 ema50_val
    ema200 := roundTo 8 ema200_val
    trend := tr.1
    trend_score := tr.2
    price_vs_ema20 := roundTo 2 ((current_price - ema20_val) / ema20_val * 100)
    price_vs_ema50 := roundTo 2 ((current_price - ema50_val) / ema50_val * 100)
    price_vs_ema200 := roundTo 2 ((current_price - ema200_val) / ema200_val * 100) }

inductive VolStatus where
  | high
  | normal
  | low
deriving DecidableEq

/-- The dict returned by `calculate_volume_status` (`indicators.py`);
the Python key `ratio` is rendered as `volRatio`. -/
structure VolumeData where
  current : ℚ
  average : ℚ
  volRatio : ℚ
  status : VolStatus
deriving DecidableEq

/-- `calculate_volume_status` (`indicators.py` lines 202-244). -/
def calculate_volume_status (period : ℕ) (df : List Candle) : VolumeData :=
  let volumes := df.map Candle.volume
  let current_volume := lastD volumes
  match ta_sma_last period volumes with
  | none =>
      { current := current_volume, average := 0, volRatio := 1, status := VolStatus.normal }
  | some avg_volume =>
      if avg_volume = 0 then
        { current := current_volume, average := 0, volRatio := 1, status := VolStatus.normal }
      else
        let r := current_volume / avg_volume
        let status :=
          if r > 3/2 then VolStatus.high
          else if r < 4/5 then VolStatus.low
          else VolStatus.normal
        { current := roundTo 2 current_volume
          average := roundTo 2 avg_volume
          volRatio := roundTo 2 r
          status := status }

inductive PivotType where
  | high
  | low
deriving DecidableEq

/-- A pivot from `find_pivot_points` (`support_resistance.py`).  The
Python dict also carries a timestamp copied from the index; it is unused
downstream and omitted here. -/
structure Pivot where
  index : ℕ
  price : ℚ
  ptype : PivotType
deriving DecidableEq

/-- Candle access by position (`highs[i]` / `lows[i]`); indices are always
in range at use sites. -/
def nthCandle (df : List Candle) (i : ℕ) : Candle :=
  df.getD i ⟨0, 0, 0, 0, 0⟩

/-- `find_pivot_points` (`support_resistance.py` lines 8-85): candle `i`
is a swing high iff its high strictly exceeds the highs of the `left`
preceding and `right` following candles (a `>=` neighbor disqualifies),
and symmetrically for swing lows.  Per loop iteration the high pivot is
appended before the low pivot, as in the source. -/
def find_pivot_points (df : List Candle) (left right : ℕ) : List Pivot :=
  if df.length < left + right + 1 then []
  else
    (List.range' left (df.length - right - left)).flatMap (fun i =>
      let c := nthCandle df i
      let is_swing_high :=
        (List.range' 1 left).all (fun j => decide ((nthCandle df (i - j)).high < c.high)) &&
        (List.range' 1 right).all (fun j => decide ((nthCandle df (i + j)).high < c.high))
      let is_swing_low :=
        (List.range' 1 left).all (fun j => decide ((nthCandle df (i - j)).low > c.low)) &&
        (List.range' 1 right).all (fun j => decide ((nthCandle df (i + j)).low > c.low))
      (if is_swing_high then [Pivot.mk i c.high PivotType.high] else []) ++
      (if is_swing_low then [Pivot.mk i c.low PivotType.low] else []))

/-- The greedy clustering loop of `find_sr_levels`, fuel-indexed so the
recursion is structural: each step consumes at least one pivot, so fuel
equal to the pivot count (as supplied by `clusterPivots`) never runs
out. -/
def clusterPivotsFuel (thr : ℚ) : ℕ → List Pivot → List (List Pivot)
  | 0, _ => []
  | _, [] => []
  | fuel + 1, p :: rest =>
    let parts := rest.partition (fun q => decide (abs (p.price - q.price) / p.price ≤ thr))
    (p :: parts.1) :: clusterPivotsFuel thr fuel parts.2

/-- The greedy clustering loop of `find_sr_levels`: the first unused pivot
seeds a cluster and absorbs every other not-yet-used pivot within
`thr` relative distance of the seed (the Python `used`-set loop rendered
as partition recursion; order of members is preserved). -/
def clusterPivots (thr : ℚ) (pivots : List Pivot) : List (List Pivot) :=
  clusterPivotsFuel thr pivots.length pivots

inductive SRType where
  | support
  | resistance
deriving DecidableEq

/-- An S/R level from `find_sr_levels` (`support_resistance.py`). -/
structure SRLevel where
  level : ℚ
  strength : ℕ
  type : SRType
  high_touches : ℕ
  low_touches : ℕ
  pivots : List Pivot
deriving DecidableEq

/-- Stable descending insertion by `strength` (the Python
`sort(key=strength, reverse=True)` is stable, keeping equal strengths in
original order). -/
def insertDesc (x : SRLevel) : List SRLevel → List SRLevel
  | [] => [x]
  | y :: ys => if y.strength ≤ x.strength then x :: y :: ys else y :: insertDesc x ys

/-- Stable sort of levels by strength, descending. -/
def sortByStrengthDesc (l : List SRLevel) : List SRLevel :=
  l.foldr insertDesc []

/-- `find_sr_levels` (`support_resistance.py` lines 88-172). -/
def find_sr_levels (df : List Candle) (lookback : ℕ) (cluster_threshold : ℚ)
    (min_touches : ℕ) : List SRLevel :=
  let df_lookback := df.drop (df.length - lookback)
  let pivots := find_pivot_points df_lookback 5 5
  if pivots = [] then []
  else
    let clusters := clusterPivots cluster_threshold pivots
    let current_price := lastD (closesOf df)
    let sr_levels := clusters.filterMap (fun cluster =>
      if cluster.length < min_touches then none
      else
        let avg_price := (cluster.map Pivot.price).sum / (cluster.length : ℚ)
        let high_count := (cluster.filter (fun p => decide (p.ptype = PivotType.high))).length
        let low_count := (cluster.filter (fun p => decide (p.ptype = PivotType.low))).length
        let sr_type :=
          if avg_price < current_price then SRType.support else SRType.resistance
        some { level := roundTo 8 avg_price
               strength := cluster.length
               type := sr_type
               high_touches := high_count
               low_touches := low_count
               pivots := cluster })
    sortByStrengthDesc sr_levels

inductive FlipType where
  | bullish
  | bearish
deriving DecidableEq

/-- The dict returned by `detect_sr_flip` (`support_resistance.py`). -/
structure FlipResult where
  flip_detected : Bool
  flip_type : Option FlipType
  level : Option ℚ
  confidence : ℕ
deriving DecidableEq

/-- The initial "no flip" result of `detect_sr_flip`. -/
def emptyFlip : FlipResult := ⟨false, none, none, 0⟩

/-- `flip_threshold = 0.015` (1.5%), the default of `detect_sr_flip`. -/
def flip_threshold : ℚ := 15/1000

/-- `confirmation_candles = 3`, the default of `detect_sr_flip`. -/
def confirmation_candles : ℕ := 3

/-- `current_price = df["close"].iloc[-1]`. -/
def currentCloseOf (df : List Candle) : ℚ := lastD (closesOf df)

/-- `recent_low = df["low"].iloc[-confirmation_candles:].min()`. -/
def recentLowOf (df : List Candle) : ℚ :=
  minD ((df.drop (df.length - confirmation_candles)).map Candle.low)

/-- `recent_high = df["high"].iloc[-confirmation_candles:].max()`. -/
def recentHighOf (df : List Candle) : ℚ :=
  maxD ((df.drop (df.length - confirmation_candles)).map Candle.high)

/-- `previous_prices = df["close"].iloc[-confirmation_candles-10:-confirmation_candles]`
(for series long enough to pass the guard this is exactly the 10 closes
preceding the confirmation window). -/
def previousClosesOf (df : List Candle) : List ℚ :=
  ((closesOf df).drop (df.length - (confirmation_candles + 10))).take 10

/-- The bullish-flip conditions of `detect_sr_flip` for one level:
was-resistance (≥2 high touches), a prior close below the level, current
close above it, the recent low back under `level·(1+threshold)`, and the
current close above the recent low. -/
def bullCondHolds (df : List Candle) (sr : SRLevel) : Bool :=
  decide (2 ≤ sr.high_touches) &&
  (previousClosesOf df).any (fun c => decide (c < sr.level)) &&
  decide (currentCloseOf df > sr.level) &&
  decide (recentLowOf df ≤ sr.level * (1 + flip_threshold)) &&
  decide (currentCloseOf df > recentLowOf df)

/-- The bearish-flip conditions of `detect_sr_flip` for one level (mirror
of `bullCondHolds`). -/
def bearCondHolds (df : List Candle) (sr : SRLevel) : Bool :=
  decide (2 ≤ sr.low_touches) &&
  (previousClosesOf df).any (fun c => decide (c > sr.level)) &&
  decide (currentCloseOf df < sr.level) &&
  decide (recentHighOf df ≥ sr.level * (1 - flip_threshold)) &&
  decide (currentCloseOf df < recentHighOf df)

/-- The bullish flip record built for a level, with
`confidence = min(100, strength·20 + 40)`. -/
def bullFlipOf (sr : SRLevel) : FlipResult :=
  ⟨true, some FlipType.bullish, some sr.level, min 100 (sr.strength * 20 + 40)⟩

/-- The bearish flip record built for a level. -/
def bearFlipOf (sr : SRLevel) : FlipResult :=
  ⟨true, some FlipType.bearish, some sr.level, min 100 (sr.strength * 20 + 40)⟩

/-- One iteration of the `for sr in sr_levels` loop of `detect_sr_flip`:
skip levels farther than `flip_threshold` from the current close, then
try the bullish flip and afterwards the bearish flip, each replacing the
running result only when its confidence is strictly higher. -/
def flipStep (df : List Candle) (acc : FlipResult) (sr : SRLevel) : FlipResult :=
  let price_distance := abs (currentCloseOf df - sr.level) / sr.level
  if price_distance > flip_threshold then acc
  else
    let acc1 :=
      if bullCondHolds df sr then
        if acc.confidence < min 100 (sr.strength * 20 + 40) then bullFlipOf sr else acc
      else acc
    if bearCondHolds df sr then
      if acc1.confidence < min 100 (sr.strength * 20 + 40) then bearFlipOf sr else acc1
    else acc1

/-- `detect_sr_flip` (`support_resistance.py` lines 175-271). -/
def detect_sr_flip (df : List Candle) (sr_levels : List SRLevel) : FlipResult :=
  if df.length < confirmation_candles + 10 ∨ sr_levels = [] then emptyFlip
  else sr_levels.foldl (flipStep df) emptyFlip

/-- The flip candidates one level can contribute, in source evaluation
order (bullish before bearish). -/
def levelCandidates (df : List Candle) (sr : SRLevel) : List FlipResult :=
  if abs (currentCloseOf df - sr.level) / sr.level > flip_threshold then []
  else
    (if bullCondHolds df sr then [bullFlipOf sr] else []) ++
    (if bearCondHolds df sr then [bearFlipOf sr] else [])

/-- All qualifying flips of a `detect_sr_flip` run, in evaluation order. -/
def flipCandidates (df : List Candle) (sr_levels : List SRLevel) : List FlipResult :=
  if df.length < confirmation_candles + 10 ∨ sr_levels = [] then []
  else sr_levels.flatMap (levelCandidates df)

/-- The selection fold of `detect_sr_flip`: keep the incoming flip only
when its confidence is strictly higher than the current best. -/
def pickBest (init : FlipResult) (cs : List FlipResult) : FlipResult :=
  cs.foldl (fun a c => if a.confidence < c.confidence then c else a) init

/-- `get_nearest_sr` helper: Python `max(supports, key=level)` (first
maximal element wins ties). -/
def maxByLevel : List SRLevel → Option SRLevel
  | [] => none
  | x :: xs => some (xs.foldl (fun a b => if b.level > a.level then b else a) x)

/-- `get_nearest_sr` helper: Python `min(resistances, key=level)`. -/
def minByLevel : List SRLevel → Option SRLevel
  | [] => none
  | x :: xs => some (xs.foldl (fun a b => if b.level < a.level then b else a) x)

/-- `get_nearest_sr` (`support_resistance.py` lines 274-300). -/
def get_nearest_sr (current_price : ℚ) (sr_levels : List SRLevel) :
    Option SRLevel × Option SRLevel :=
  let supports := sr_levels.filter (fun sr => decide (sr.level < current_price))
  let resistances := sr_levels.filter (fun sr => decide (sr.level > current_price))
  (maxByLevel supports, minByLevel resistances)

inductive Proximity where
  | very_close
  | close
  | far
deriving DecidableEq

/-- The dict returned by `calculate_sr_distance_atr` (`signals.py`). -/
structure SRDistInfo where
  level : ℚ
  distance : ℚ
  distance_atr : ℚ
  proximity : Proximity
deriving DecidableEq

/-- `calculate_sr_distance_atr` (`signals.py` lines 77-111). -/
def calculate_sr_distance_atr (current_price : ℚ) (level : Option ℚ) (atr : ℚ) :
    Option SRDistInfo :=
  match level with
  | none => none
  | some l =>
    if atr = 0 then none
    else
      let distance := abs (current_price - l)
      let distance_atr := distance / atr
      let proximity :=
        if distance_atr ≤ 1/2 then Proximity.very_close
        else if distance_atr ≤ 1 then Proximity.close
        else Proximity.far
      some { level := roundTo 8 l
             distance := roundTo 8 distance
             distance_atr := roundTo 2 distance_atr
             proximity := proximity }

/-- The seven signal classes. -/
inductive Signal where
  | STRONG_BUY
  | BUY
  | WEAK_BUY
  | HOLD
  | WEAK_SELL
  | SELL
  | STRONG_SELL
deriving DecidableEq

/-- The reason strings appended by `analyze`, modelled as constructors
carrying the interpolated numeric payloads. -/
inductive Reason where
  | strongUptrend
  | weakUptrend
  | strongDowntrend
  | weakDowntrend
  | rangingMarket
  | bullishFlipAt (level : ℚ)
  | bearishFlipAt (level : ℚ)
  | nearSupport (level distATR : ℚ)
  | nearResistance (level distATR : ℚ)
  | macdBullish
  | macdBullishCrossover
  | macdBearish
  | macdBearishCrossover
  | highVolume (r : ℚ)
  | rsiNeutral (r : ℚ)
  | rsiOversold (r : ℚ)
  | rsiApproachingOversold (r : ℚ)
  | rsiOverbought (r : ℚ)
  | rsiApproachingOverbought (r : ℚ)
deriving DecidableEq

/-- The warning strings appended by `analyze`. -/
inductive Warning where
  | lowVolume (r : ℚ)
  | rsiOverboughtReversal
  | rsiWatchPullback
  | mixedSignals
deriving DecidableEq

/-- The mutable scoring state of `analyze`: the two scores and the
ordered reason/warning lists. -/
structure ScoreState where
  bullish_score : ℕ
  bearish_score : ℕ
  reasons : List Reason
  warnings : List Warning
deriving DecidableEq

/-- Scoring state at the start of `analyze` (scores 0, empty lists). -/
def initState : ScoreState := ⟨0, 0, [], []⟩

/-- Rule 1, trend analysis (`signals.py` lines 187-202). -/
def trendRule (trend : Trend) (st : ScoreState) : ScoreState :=
  match trend with
  | Trend.strong_up =>
    { st with bullish_score := st.bullish_score + 30
              reasons := st.reasons ++ [Reason.strongUptrend] }
  | Trend.weak_up =>
    { st with bullish_score := st.bullish_score + 15
              reasons := st.reasons ++ [Reason.weakUptrend] }
  | Trend.strong_down =>
    { st with bearish_score := st.bearish_score + 30
              reasons := st.reasons ++ [Reason.strongDowntrend] }
  | Trend.weak_down =>
    { st with bearish_score := st.bearish_score + 15
              reasons := st.reasons ++ [Reason.weakDowntrend] }
  | Trend.ranging =>
    { st with reasons := st.reasons ++ [Reason.rangingMarket] }

/-- Rule 2, S/R flip (`signals.py` lines 204-211).  The source tests
`flip_type == "bullish"` and treats every other detected flip as
bearish. -/
def flipRule (f : FlipResult) (st : ScoreState) : ScoreState :=
  if f.flip_detected then
    if f.flip_type = some FlipType.bullish then
      { st with bullish_score := st.bullish_score + 25
                reasons := st.reasons ++ [Reason.bullishFlipAt (f.level.getD 0)] }
    else
      { st with bearish_score := st.bearish_score + 25
                reasons := st.reasons ++ [Reason.bearishFlipAt (f.level.getD 0)] }
  else st

/-- Rule 3, S/R proximity (`signals.py` lines 213-222). -/
def proximityRule (support_info resistance_info : Option SRDistInfo)
    (st : ScoreState) : ScoreState :=
  let st1 :=
    match support_info with
    | some si =>
      if si.proximity = Proximity.very_close ∨ si.proximity = Proximity.close then
        let points := if si.proximity = Proximity.very_close then 20 else 12
        { st with bullish_score := st.bullish_score + points
                  reasons := st.reasons ++ [Reason.nearSupport si.level si.distance_atr] }
      else st
    | none => st
  match resistance_info with
  | some ri =>
    if ri.proximity = Proximity.very_close ∨ ri.proximity = Proximity.close then
      let points := if ri.proximity = Proximity.very_close then 20 else 12
      { st1 with bearish_score := st1.bearish_score + points
                 reasons := st1.reasons ++ [Reason.nearResistance ri.level ri.distance_atr] }
    else st1
  | none => st1

/-- Rule 4, MACD (`signals.py` lines 224-236). -/
def macdRule (md : MACDData) (st : ScoreState) : ScoreState :=
  if md.status = MACDStatus.bullish then
    let st1 := { st with bullish_score := st.bullish_score + 10
                         reasons := st.reasons ++ [Reason.macdBullish] }
    if md.crossover = some CrossDir.bullish then
      { st1 with bullish_score := st1.bullish_score + 5
                 reasons := st1.reasons ++ [Reason.macdBullishCrossover] }
    else st1
  else if md.status = MACDStatus.bearish then
    let st1 := { st with bearish_score := st.bearish_score + 10
                         reasons := st.reasons ++ [Reason.macdBearish] }
    if md.crossover = some CrossDir.bearish then
      { st1 with bearish_score := st1.bearish_score + 5
                 reasons := st1.reasons ++ [Reason.macdBearishCrossover] }
    else st1
  else st

/-- Rule 5, volume confirmation (`signals.py` lines 238-247): on high
volume add 10 points to whichever score is strictly greater (a tie adds
to neither); on low volume only warn. -/
def volumeRule (vd : VolumeData) (st : ScoreState) : ScoreState :=
  if vd.status = VolStatus.high then
    let st1 :=
      if st.bullish_score > st.bearish_score then
        { st with bullish_score := st.bullish_score + 10 }
      else if st.bearish_score > st.bullish_score then
        { st with bearish_score := st.bearish_score + 10 }
      else st
    { st1 with reasons := st1.reasons ++ [Reason.highVolume vd.volRatio] }
  else if vd.status = VolStatus.low then
    { st with warnings := st.warnings ++ [Warning.lowVolume vd.volRatio] }
  else st

/-- Rule 6, RSI (`signals.py` lines 249-266).  In the `rsi > 60` branch
the source increments the bearish score before comparing the scores for
the pullback warning. -/
def rsiRule (rsi : ℚ) (st : ScoreState) : ScoreState :=
  if 40 ≤ rsi ∧ rsi ≤ 60 then
    { st with reasons := st.reasons ++ [Reason.rsiNeutral rsi] }
  else if rsi < 30 then
    { st with bullish_score := st.bullish_score + 10
              reasons := st.reasons ++ [Reason.rsiOversold rsi] }
  else if rsi < 40 then
    { st with bullish_score := st.bullish_score + 5
              reasons := st.reasons ++ [Reason.rsiApproachingOversold rsi] }
  else if rsi > 70 then
    { st with bearish_score := st.bearish_score + 10
              reasons := st.reasons ++ [Reason.rsiOverbought rsi]
              warnings := st.warnings ++ [Warning.rsiOverboughtReversal] }
  else if rsi > 60 then
    let st1 := { st with bearish_score := st.bearish_score + 5
                         reasons := st.reasons ++ [Reason.rsiApproachingOverbought rsi] }
    if st1.bullish_score > st1.bearish_score then
      { st1 with warnings := st1.warnings ++ [Warning.rsiWatchPullback] }
    else st1
  else st

/-- The indicator values feeding the scoring rules (exactly the
intermediates `analyze` computes before scoring). -/
structure ScoreInput where
  trend : Trend
  sr_flip : FlipResult
  support_info : Option SRDistInfo
  resistance_info : Option SRDistInfo
  macd : MACDData
  volume : VolumeData
  rsi : ℚ
deriving DecidableEq

/-- Rules 1-6 of `analyze` in source order. -/
def computeScores (inp : ScoreInput) : ScoreState :=
  rsiRule inp.rsi
    (volumeRule inp.volume
      (macdRule inp.macd
        (proximityRule inp.support_info inp.resistance_info
          (flipRule inp.sr_flip
            (trendRule inp.trend initState)))))

/-- The signal mapping of `analyze` (`signals.py` lines 276-290),
including the HOLD confidence clamp to at most 39. -/
def determineSignal (net_score : ℤ) (confidence : ℕ) : Signal × ℕ :=
  if net_score ≥ 40 ∧ confidence ≥ 80 then (Signal.STRONG_BUY, confidence)
  else if net_score ≥ 20 ∧ confidence ≥ 60 then (Signal.BUY, confidence)
  else if net_score > 0 ∧ confidence ≥ 40 then (Signal.WEAK_BUY, confidence)
  else if net_score ≤ -40 ∧ confidence ≥ 80 then (Signal.STRONG_SELL, confidence)
  else if net_score ≤ -20 ∧ confidence ≥ 60 then (Signal.SELL, confidence)
  else if net_score < 0 ∧ confidence ≥ 40 then (Signal.WEAK_SELL, confidence)
  else (Signal.HOLD, min 39 confidence)

/-- The spec 4.5 signal table, written from the spec text: six
(predicate, signal) rows evaluated first match wins; the default row is
HOLD with the confidence capped at 39. -/
def signalSpecRules : List ((ℤ → ℕ → Bool) × Signal) :=
  [ (fun net conf => decide (net ≥ 40 ∧ conf ≥ 80), Signal.STRONG_BUY)
  , (fun net conf => decide (net ≥ 20 ∧ conf ≥ 60), Signal.BUY)
  , (fun net conf => decide (net > 0 ∧ conf ≥ 40), Signal.WEAK_BUY)
  , (fun net conf => decide (net ≤ -40 ∧ conf ≥ 80), Signal.STRONG_SELL)
  , (fun net conf => decide (net ≤ -20 ∧ conf ≥ 60), Signal.SELL)
  , (fun net conf => decide (net < 0 ∧ conf ≥ 40), Signal.WEAK_SELL) ]

/-- First-match evaluation of a spec 4.5 style signal table. -/
def firstSignalMatch (net : ℤ) (conf : ℕ) :
    List ((ℤ → ℕ → Bool) × Signal) → Signal × ℕ
  | [] => (Signal.HOLD, min 39 conf)
  | r :: rs => if r.1 net conf then (r.2, conf) else firstSignalMatch net conf rs

/-- Spec 4.5 signal mapping via the rule table. -/
def signalSpecTable (net : ℤ) (conf : ℕ) : Signal × ℕ :=
  firstSignalMatch net conf signalSpecRules

/-- The mixed-signal penalty of `analyze` (`signals.py` lines 292-295).
Python computes `int(confidence * 0.8)` on a nonnegative int ≤ 100, which
equals `confidence * 4 / 5` in ℕ (the float product truncates to the same
integer throughout that range). -/
def applyMixedPenalty (bullish_score bearish_score confidence : ℕ)
    (warnings : List Warning) : ℕ × List Warning :=
  if bullish_score > 20 ∧ bearish_score > 20 then
    (confidence * 4 / 5, warnings ++ [Warning.mixedSignals])
  else (confidence, warnings)

/-- The scores sub-dict of the `analyze` result. -/
structure Scores where
  bullish : ℕ
  bearish : ℕ
  net : ℤ
deriving DecidableEq

/-- The full result dict of `analyze` on the ≥200-candle path. -/
structure AnalysisResult where
  symbol : String
  timeframe : String
  signal : Signal
  confidence : ℕ
  trend : Trend
  volume_status : VolStatus
  price : ℚ
  ema20 : ℚ
  ema50 : ℚ
  ema200 : ℚ
  rsi : ℚ
  macd : MACDData
  atr : ℚ
  support : Option SRDistInfo
  resistance : Option SRDistInfo
  sr_flip : FlipResult
  volume : VolumeData
  scores : Scores
  reasons : List Reason
  warnings : List Warning
  timestamp : ℕ
deriving DecidableEq

/-- `analyze` returns one of two dict shapes: the short-circuit
insufficient-data dict (`signals.py` lines 144-150) or the full result. -/
inductive AnalyzeOutput where
  | insufficient (signal : Signal) (confidence : ℕ) (error : String) (timestamp : ℕ)
  | full (r : AnalysisResult)
deriving DecidableEq

/-- Write the wall-clock timestamp into either result shape (the
`datetime.now().isoformat()` fields). -/
def setTimestamp (t : ℕ) : AnalyzeOutput → AnalyzeOutput
  | AnalyzeOutput.insufficient s c e _ => AnalyzeOutput.insufficient s c e t
  | AnalyzeOutput.full r => AnalyzeOutput.full { r with timestamp := t }

/-- The indicator intermediates `analyze` computes before scoring
(`signals.py` lines 152-179), assembled from the candle series. -/
def scoreInputOf (df : List Candle) : ScoreInput :=
  let closes := closesOf df
  let current_price := lastD closes
  let rsi := (ta_rsi_last 14 closes).getD 0
  let atr := (ta_atr_last 14 df).getD 0
  let ema_data := calculate_ema_trend df
  let macd_data := calculate_macd closes
  let volume_data := calculate_volume_status 20 df
  let sr_levels := find_sr_levels df 100 (5/1000) 2
  let sr_flip := detect_sr_flip df sr_levels
  let nearest := get_nearest_sr current_price sr_levels
  let support_info :=
    calculate_sr_distance_atr current_price (nearest.1.map SRLevel.level) atr
  let resistance_info :=
    calculate_sr_distance_atr current_price (nearest.2.map SRLevel.level) atr
  { trend := ema_data.trend
    sr_flip := sr_flip
    support_info := support_info
    resistance_info := resistance_info
    macd := macd_data
    volume := volume_data
    rsi := rsi }

/-- The pure body of `analyze` (`signals.py` lines 114-328) as a function
of the candle series, with the timestamp left at 0 (see `analyze`). -/
def analyzeBody (symbol timeframe : String) (df : List Candle) : AnalyzeOutput :=
  if df.length < 200 then
    AnalyzeOutput.insufficient Signal.HOLD 0 "Insufficient data (need 200+ candles)" 0
  else
    let closes := closesOf df
    let current_price := lastD closes
    let rsi := (ta_rsi_last 14 closes).getD 0
    let atr := (ta_atr_last 14 df).getD 0
    let ema_data := calculate_ema_trend df
    let inp := scoreInputOf df
    let st := computeScores inp
    let net_score : ℤ := (st.bullish_score : ℤ) - (st.bearish_score : ℤ)
    let total_score := max st.bullish_score st.bearish_score
    let confidence := min 100 total_score
    let sc := determineSignal net_score confidence
    let fin := applyMixedPenalty st.bullish_score st.bearish_score sc.2 st.warnings
    AnalyzeOutput.full
      { symbol := symbol
        timeframe := timeframe
        signal := sc.1
        confidence := fin.1
        trend := ema_data.trend
        volume_status := inp.volume.status
        price := current_price
        ema20 := ema_data.ema20
        ema50 := ema_data.ema50
        ema200 := ema_data.ema200
        rsi := roundTo 2 rsi
        macd := inp.macd
        atr := roundTo 8 atr
        support := inp.support_info
        resistance := inp.resistance_info
        sr_flip := inp.sr_flip
        volume := inp.volume
        scores := ⟨st.bullish_score, st.bearish_score, net_score⟩
        reasons := st.reasons
        warnings := fin.2
        timestamp := 0 }

/-- `analyze` (`signals.py`): candle fetching is orchestration outside
the core, so the candle series is an argument; the impure
`datetime.now()` is the explicit `now` argument stamped onto the pure
body. -/
def analyze (symbol timeframe : String) (df : List Candle) (now : ℕ) : AnalyzeOutput :=
  setTimestamp now (analyzeBody symbol timeframe df)

/-- Erase the timestamp of a result (for comparing two runs). -/
def stripTimestamp (o : AnalyzeOutput) : AnalyzeOutput := setTimestamp 0 o

/-- The signal field of either result shape. -/
def AnalyzeOutput.signalOf : AnalyzeOutput → Signal
  | AnalyzeOutput.insufficient s _ _ _ => s
  | AnalyzeOutput.full r => r.signal

/-- The confidence field of either result shape. -/
def AnalyzeOutput.confidenceOf : AnalyzeOutput → ℕ
  | AnalyzeOutput.insufficient _ c _ _ => c
  | AnalyzeOutput.full r => r.confidence

/-- The net score `bullish_score - bearish_score` of a scored input. -/
def netScoreOf (inp : ScoreInput) : ℤ :=
  ((computeScores inp).bullish_score : ℤ) - ((computeScores inp).bearish_score : ℤ)

/-- The normalized confidence `min(100, max(bullish, bearish))`. -/
def rawConfOf (inp : ScoreInput) : ℕ :=
  min 100 (max (computeScores inp).bullish_score (computeScores inp).bearish_score)

/-- The signal chosen by the classification step (before the mixed-signal
penalty). -/
def classifySigOf (inp : ScoreInput) : Signal :=
  (determineSignal (netScoreOf inp) (rawConfOf inp)).1

/-- The confidence produced by the classification step (including the
HOLD clamp, before the mixed-signal penalty). -/
def classifyConfOf (inp : ScoreInput) : ℕ :=
  (determineSignal (netScoreOf inp) (rawConfOf inp)).2

/-- Confidence and warnings after the mixed-signal penalty. -/
def finalOf (inp : ScoreInput) : ℕ × List Warning :=
  applyMixedPenalty (computeScores inp).bullish_score (computeScores inp).bearish_score
    (classifyConfOf inp) (computeScores inp).warnings

/-- Candle constructor helper for concrete test series (volume 0; volume
is unused by the S/R functions). -/
def mkC (o h l c : ℚ) : Candle := ⟨o, h, l, c, 0⟩

/-- 13 candles: ten closes at 99 below the tested levels, then three
candles closing at 100.5 with lows at 100 — both crafted levels qualify
for a bullish flip with equal confidence. -/
def df3 : List Candle :=
  List.replicate 10 (mkC 99 99 90 99) ++
  List.replicate 3 (mkC (201/2) 101 100 (201/2))

/-- 13 candles like `df3`, but the first confirmation candle dips to a
low of 50: the retest low is far below the level yet
`recent_low ≤ level·(1+threshold)` still holds. -/
def df4 : List Candle :=
  List.replicate 10 (mkC 99 99 90 99) ++
  [mkC 100 101 50 (201/2)] ++
  List.replicate 2 (mkC (201/2) 101 100 (201/2))

/-- A two-touch resistance-history level at price 100. -/
def srA : SRLevel := ⟨100, 2, SRType.support, 2, 0, []⟩

/-- A two-touch resistance-history level at price 100.2. -/
def srB : SRLevel := ⟨501/5, 2, SRType.support, 2, 0, []⟩

/-- 26 candles with two isolated swing highs at 100 (indices 7 and 13),
a dip to closes of 99, and a final rise to closes of 100.5: the pivot
clustering yields one strength-2 level at 100 and the flip detector
reports a bullish flip on it. -/
def df10 : List Candle :=
  List.replicate 7 (mkC (181/2) 91 90 91) ++
  [mkC (181/2) 100 90 91] ++
  List.replicate 5 (mkC (181/2) 91 90 91) ++
  [mkC (181/2) 100 90 99] ++
  List.replicate 9 (mkC 99 99 90 99) ++
  List.replicate 3 (mkC (201/2) 101 100 (201/2))

/-- A 200-candle series (contents irrelevant) for length-hypothesis
witnesses. -/
def dfC1 : List Candle := List.replicate 200 (mkC 1 1 1 1)

/-- A scored input whose bullish score is 30 (strong uptrend) and whose
bearish score is 25 (bearish S/R flip): both sides exceed 20, so the
mixed-signal penalty fires. -/
def inpC6 : ScoreInput :=
  { trend := Trend.strong_up
    sr_flip := ⟨true, some FlipType.bearish, some 100, 80⟩
    support_info := none
    resistance_info := none
    macd := ⟨0, 0, 0, 0, MACDStatus.neutral, none⟩
    volume := ⟨0, 0, 1, VolStatus.normal⟩
    rsi := 50 }

/-- A high-volume reading. -/
def vdHigh : VolumeData := ⟨0, 0, 2, VolStatus.high⟩

/-- A low-volume reading. -/
def vdLow : VolumeData := ⟨0, 0, 1/2, VolStatus.low⟩

/-- A scoring state with the bullish side leading. -/
def stC7 : ScoreState := ⟨30, 15, [], []⟩

theorem signal_cases (s : Signal) :
    s = Signal.STRONG_BUY ∨ s = Signal.BUY ∨ s = Signal.WEAK_BUY ∨ s = Signal.HOLD ∨
    s = Signal.WEAK_SELL ∨ s = Signal.SELL ∨ s = Signal.STRONG_SELL := by
  cases s <;> simp

theorem determineSignal_conf_le (n : ℤ) (c : ℕ) : (determineSignal n c).2 ≤ c := by
  unfold determineSignal
  split_ifs <;> simp [Nat.min_le_right]

theorem applyMixedPenalty_fst_le (b s c : ℕ) (w : List Warning) :
    (applyMixedPenalty b s c w).1 ≤ c := by
  unfold applyMixedPenalty
  split_ifs with h
  · have h1 : c * 4 / 5 ≤ c * 5 / 5 := Nat.div_le_div_right (by omega)
    have h2 : c * 5 / 5 = c := Nat.mul_div_cancel c (by omega)
    simpa [h2] using h1
  · exact le_refl c

theorem confidenceOf_setTimestamp (t : ℕ) (o : AnalyzeOutput) :
    (setTimestamp t o).confidenceOf = o.confidenceOf := by
  cases o <;> rfl

theorem signalOf_setTimestamp (t : ℕ) (o : AnalyzeOutput) :
    (setTimestamp t o).signalOf = o.signalOf := by
  cases o <;> rfl

theorem setTimestamp_setTimestamp (a b : ℕ) (o : AnalyzeOutput) :
    setTimestamp a (setTimestamp b o) = setTimestamp a o := by
  cases o <;> rfl

/-- C8: for every candle series with fewer than 200 candles, `analyze`
short-circuits to a HOLD result with confidence 0 and the explicit
insufficient-data marker, returning normally rather than raising. -/
theorem C8_insufficient_history :
    ∀ (symbol timeframe : String) (df : List Candle) (now : ℕ), df.length < 200 →
      analyze symbol timeframe df now =
        AnalyzeOutput.insufficient Signal.HOLD 0 "Insufficient data (need 200+ candles)" now := by
  intro symbol timeframe df now h
  unfold analyze analyzeBody
  rw [if_pos h]
  rfl

/-- Witness for C8 at the empty candle series. -/
theorem C8_insufficient_history_witness :
    ([] : List Candle).length < 200 ∧
      analyze "BTCUSDT" "1h" [] 5 =
        AnalyzeOutput.insufficient Signal.HOLD 0 "Insufficient data (need 200+ candles)" 5 :=
  ⟨by simp, C8_insufficient_history "BTCUSDT" "1h" [] 5 (by simp)⟩

/-- C2 refuted as stated: two invocations of `analyze` on the identical
candle series at different wall-clock instants differ (in the timestamp
field), so the returned structures are not identical in every field. -/
theorem C2_counterexample : analyze "BTCUSDT" "1h" [] 0 ≠ analyze "BTCUSDT" "1h" [] 1 := by
  decide

/-- C2 (amended): two invocations of `analyze` on the identical candle
series agree on every field except the wall-clock timestamp — after
erasing the timestamp the two results are identical. -/
theorem C2_pure_modulo_timestamp :
    ∀ (symbol timeframe : String) (df : List Candle) (n1 n2 : ℕ),
      stripTimestamp (analyze symbol timeframe df n1) =
        stripTimestamp (analyze symbol timeframe df n2) := by
  intro symbol timeframe df n1 n2
  unfold stripTimestamp analyze
  rw [setTimestamp_setTimestamp, setTimestamp_setTimestamp]

/-- C7: in the volume-confirmation rule (rule 5, evaluated after trend,
flip, S/R proximity and MACD, as the `computeScores` conjunct records),
high volume adds exactly 10 points to the strictly leading score (a tie
changes neither score), and low volume only appends the low-conviction
warning. -/
theorem C7_volume_confirmation :
    ∀ (vd : VolumeData) (st : ScoreState),
      (∀ inp : ScoreInput, computeScores inp =
        rsiRule inp.rsi (volumeRule inp.volume (macdRule inp.macd
          (proximityRule inp.support_info inp.resistance_info
            (flipRule inp.sr_flip (trendRule inp.trend initState)))))) ∧
      (vd.status = VolStatus.high →
        (st.bearish_score < st.bullish_score →
          volumeRule vd st = { st with bullish_score := st.bullish_score + 10,
                                       reasons := st.reasons ++ [Reason.highVolume vd.volRatio] }) ∧
        (st.bullish_score < st.bearish_score →
          volumeRule vd st = { st with bearish_score := st.bearish_score + 10,
                                       reasons := st.reasons ++ [Reason.highVolume vd.volRatio] }) ∧
        (st.bullish_score = st.bearish_score →
          volumeRule vd st = { st with reasons := st.reasons ++ [Reason.highVolume vd.volRatio] })) ∧
      (vd.status = VolStatus.low →
        volumeRule vd st = { st with warnings := st.warnings ++ [Warning.lowVolume vd.volRatio] }) := by
  intro vd st
  refine ⟨fun _ => rfl, fun hh => ⟨fun hlt => ?_, fun hlt => ?_, fun heq => ?_⟩, fun hl => ?_⟩
  · simp [volumeRule, hh, hlt, Nat.not_lt_of_lt hlt]
  · simp [volumeRule, hh, hlt, Nat.not_lt_of_lt hlt]
  · simp [volumeRule, hh, heq]
  · simp [volumeRule, hl]

/-- Witness for C7: with bullish 30 vs bearish 15 and high volume the
bullish score gains exactly 10; with low volume only the warning is
appended. -/
theorem C7_volume_confirmation_witness :
    vdHigh.status = VolStatus.high ∧ stC7.bearish_score < stC7.bullish_score ∧
      volumeRule vdHigh stC7 = { stC7 with bullish_score := stC7.bullish_score + 10,
                                           reasons := stC7.reasons ++ [Reason.highVolume vdHigh.volRatio] } ∧
      vdLow.status = VolStatus.low ∧
      volumeRule vdLow stC7 = { stC7 with warnings := stC7.warnings ++ [Warning.lowVolume vdLow.volRatio] } :=
  ⟨rfl, by decide,
    ((C7_volume_confirmation vdHigh stC7).2.1 rfl).1 (by decide),
    rfl,
    (C7_volume_confirmation vdLow stC7).2.2 rfl⟩

/-- C5: the final signal mapping of `analyze` agrees with the spec 4.5
first-match rule table (including the HOLD clamp of the confidence to at
most 39), and the boundary examples classify as the spec states. -/
theorem C5_signal_mapping :
    (∀ (net : ℤ) (conf : ℕ), determineSignal net conf = signalSpecTable net conf) ∧
    (∀ (net : ℤ) (conf : ℕ),
      (determineSignal net conf).1 = Signal.HOLD → (determineSignal net conf).2 ≤ 39) ∧
    determineSignal 40 40 = (Signal.WEAK_BUY, 40) ∧
    determineSignal 80 80 = (Signal.STRONG_BUY, 80) := by
  refine ⟨fun net conf => ?_, fun net conf h => ?_, by decide, by decide⟩
  · simp only [determineSignal, signalSpecTable, signalSpecRules, firstSignalMatch,
      decide_eq_true_eq]
  · unfold determineSignal at h ⊢
    split_ifs at h ⊢
    simp_all [Nat.min_le_left]

/-- Witness for C5 in the HOLD branch: net 0 with confidence 50 maps to
HOLD with the confidence clamped to 39. -/
theorem C5_signal_mapping_witness :
    (determineSignal 0 50).1 = Signal.HOLD ∧ (determineSignal 0 50).2 ≤ 39 :=
  ⟨by decide, C5_signal_mapping.2.1 0 50 (by decide)⟩

/-- C9: the trend classification follows the exact 7-rule priority table
of spec 4.2 (first match wins) on the latest close versus the EMA stack,
with `calculate_ema_trend` substituting ema50 for an undefined ema200,
and the two spec examples classify as stated. -/
theorem C9_trend_classification :
    (∀ p e20 e50 e200 : ℚ, trendClassify p e20 e50 e200 = trendSpecTable p e20 e50 e200) ∧
    (∀ df : List Candle, (calculate_ema_trend df).trend =
      (trendClassify (lastD (closesOf df)) (emaLastD 20 (closesOf df))
        (emaLastD 50 (closesOf df))
        ((emaLast 200 (closesOf df)).getD (emaLastD 50 (closesOf df)))).1) ∧
    trendClassify 110 105 100 95 = (Trend.strong_up, 100) ∧
    trendClassify 90 95 100 105 = (Trend.strong_down, 0) := by
  refine ⟨fun p e20 e50 e200 => ?_, fun df => rfl,
    by with_unfolding_all decide, by with_unfolding_all decide⟩
  simp only [trendClassify, trendSpecTable, trendSpecRules, firstTrendMatch,
    decide_eq_true_eq]

theorem trendRule_warnings (t : Trend) (st : ScoreState) :
    (trendRule t st).warnings = st.warnings := by
  cases t <;> rfl

theorem flipRule_warnings (f : FlipResult) (st : ScoreState) :
    (flipRule f st).warnings = st.warnings := by
  unfold flipRule
  split_ifs <;> rfl

theorem proximityRule_warnings (si ri : Option SRDistInfo) (st : ScoreState) :
    (proximityRule si ri st).warnings = st.warnings := by
  unfold proximityRule
  cases si <;> cases ri <;> dsimp only <;> split_ifs <;> rfl

theorem macdRule_warnings (md : MACDData) (st : ScoreState) :
    (macdRule md st).warnings = st.warnings := by
  unfold macdRule
  split_ifs <;> rfl

theorem volumeRule_no_mixed (vd : VolumeData) (st : ScoreState)
    (h : Warning.mixedSignals ∉ st.warnings) :
    Warning.mixedSignals ∉ (volumeRule vd st).warnings := by
  unfold volumeRule
  split_ifs <;> simp_all

theorem rsiRule_no_mixed (r : ℚ) (st : ScoreState)
    (h : Warning.mixedSignals ∉ st.warnings) :
    Warning.mixedSignals ∉ (rsiRule r st).warnings := by
  unfold rsiRule
  split_ifs <;> try simp_all
  split_ifs <;> simp_all

theorem computeScores_no_mixed (inp : ScoreInput) :
    Warning.mixedSignals ∉ (computeScores inp).warnings := by
  unfold computeScores
  apply rsiRule_no_mixed
  apply volumeRule_no_mixed
  rw [macdRule_warnings, proximityRule_warnings, flipRule_warnings, trendRule_warnings]
  simp [initState]

/-- C6: the mixed-signal penalty fires iff both scores exceed 20; exactly
then the final confidence is the integer truncation of 0.8 times the
classification-step confidence and the mixed-signals warning is present;
and the penalty, applied after classification, leaves the chosen signal
equal to the classification-step signal. -/
theorem C6_mixed_signal_penalty :
    ∀ inp : ScoreInput,
      Warning.mixedSignals ∉ (computeScores inp).warnings ∧
      ((20 < (computeScores inp).bullish_score ∧ 20 < (computeScores inp).bearish_score) ↔
        ((finalOf inp).1 = classifyConfOf inp * 4 / 5 ∧
          Warning.mixedSignals ∈ (finalOf inp).2)) ∧
      (∀ (symbol timeframe : String) (df : List Candle) (now : ℕ), 200 ≤ df.length →
        (analyze symbol timeframe df now).signalOf = classifySigOf (scoreInputOf df) ∧
        (analyze symbol timeframe df now).confidenceOf = (finalOf (scoreInputOf df)).1) := by
  intro inp
  refine ⟨computeScores_no_mixed inp, ⟨fun hb => ?_, fun hc => ?_⟩, fun symbol timeframe df now h => ?_⟩
  · unfold finalOf applyMixedPenalty
    rw [if_pos hb]
    simp
  · by_contra hb
    have : (finalOf inp).2 = (computeScores inp).warnings := by
      unfold finalOf applyMixedPenalty
      rw [if_neg ?_]
      · intro hcontra
        exact hb ⟨Nat.lt_of_lt_of_le hcontra.1 (le_refl _), hcontra.2⟩
    rw [this] at hc
    exact computeScores_no_mixed inp hc.2
  · constructor
    · rw [analyze, signalOf_setTimestamp, analyzeBody,
        if_neg (by omega : ¬ df.length < 200)]
      rfl
    · rw [analyze, confidenceOf_setTimestamp, analyzeBody,
        if_neg (by omega : ¬ df.length < 200)]
      rfl

/-- Witness for C6: a concrete input with scores 30/25 makes the penalty
fire (confidence 30 → 24, warning appended), and a 200-candle series
exercises the signal-preservation conjunct. -/
theorem C6_mixed_signal_penalty_witness :
    (20 < (computeScores inpC6).bullish_score ∧ 20 < (computeScores inpC6).bearish_score) ∧
    ((finalOf inpC6).1 = classifyConfOf inpC6 * 4 / 5 ∧
      Warning.mixedSignals ∈ (finalOf inpC6).2) ∧
    200 ≤ dfC1.length ∧
    (analyze "BTCUSDT" "1h" dfC1 0).signalOf = classifySigOf (scoreInputOf dfC1) :=
  ⟨by with_unfolding_all decide,
    ((C6_mixed_signal_penalty inpC6).2.1).mp (by with_unfolding_all decide),
    by simp [dfC1],
    (((C6_mixed_signal_penalty inpC6).2.2) "BTCUSDT" "1h" dfC1 0 (by simp [dfC1])).1⟩

/-- C1: on every candle series with at least 200 candles the composite
scorer returns a confidence of at most 100 (as a natural number it is
also at least 0) and a signal among the seven classes, after every
adjustment including the HOLD clamp and the mixed-signal penalty. -/
theorem C1_result_bounds :
    ∀ (symbol timeframe : String) (df : List Candle) (now : ℕ), 200 ≤ df.length →
      (analyze symbol timeframe df now).confidenceOf ≤ 100 ∧
      ((analyze symbol timeframe df now).signalOf = Signal.STRONG_BUY ∨
       (analyze symbol timeframe df now).signalOf = Signal.BUY ∨
       (analyze symbol timeframe df now).signalOf = Signal.WEAK_BUY ∨
       (analyze symbol timeframe df now).signalOf = Signal.HOLD ∨
       (analyze symbol timeframe df now).signalOf = Signal.WEAK_SELL ∨
       (analyze symbol timeframe df now).signalOf = Signal.SELL ∨
       (analyze symbol timeframe df now).signalOf = Signal.STRONG_SELL) := by
  intro symbol timeframe df now h
  constructor
  · rw [analyze, confidenceOf_setTimestamp, analyzeBody,
      if_neg (by omega : ¬ df.length < 200)]
    exact le_trans (applyMixedPenalty_fst_le _ _ _ _)
      (le_trans (determineSignal_conf_le _ _) (Nat.min_le_left _ _))
  · exact signal_cases _

/-- Witness for C1 at a concrete 200-candle series. -/
theorem C1_result_bounds_witness :
    200 ≤ dfC1.length ∧
      ((analyze "BTCUSDT" "1h" dfC1 0).confidenceOf ≤ 100 ∧
       ((analyze "BTCUSDT" "1h" dfC1 0).signalOf = Signal.STRONG_BUY ∨
        (analyze "BTCUSDT" "1h" dfC1 0).signalOf = Signal.BUY ∨
        (analyze "BTCUSDT" "1h" dfC1 0).signalOf = Signal.WEAK_BUY ∨
        (analyze "BTCUSDT" "1h" dfC1 0).signalOf = Signal.HOLD ∨
        (analyze "BTCUSDT" "1h" dfC1 0).signalOf = Signal.WEAK_SELL ∨
        (analyze "BTCUSDT" "1h" dfC1 0).signalOf = Signal.SELL ∨
        (analyze "BTCUSDT" "1h" dfC1 0).signalOf = Signal.STRONG_SELL)) :=
  ⟨by simp [dfC1], C1_result_bounds "BTCUSDT" "1h" dfC1 0 (by simp [dfC1])⟩

theorem pickBest_nil (init : FlipResult) : pickBest init [] = init := rfl

theorem pickBest_cons (init c : FlipResult) (cs : List FlipResult) :
    pickBest init (c :: cs) =
      pickBest (if init.confidence < c.confidence then c else init) cs := rfl

theorem pickBest_append (init : FlipResult) (xs ys : List FlipResult) :
    pickBest init (xs ++ ys) = pickBest (pickBest init xs) ys := by
  unfold pickBest
  rw [List.foldl_append]

theorem pickBest_init_le (cs : List FlipResult) :
    ∀ init : FlipResult, init.confidence ≤ (pickBest init cs).confidence := by
  induction cs with
  | nil => intro init; rw [pickBest_nil]
  | cons c cs ih =>
    intro init
    rw [pickBest_cons]
    refine le_trans ?_ (ih _)
    by_cases h : init.confidence < c.confidence
    · rw [if_pos h]; exact le_of_lt h
    · rw [if_neg h]

theorem pickBest_mem_le (cs : List FlipResult) :
    ∀ init : FlipResult, ∀ c ∈ cs, c.confidence ≤ (pickBest init cs).confidence := by
  induction cs with
  | nil => intro init c hc; simp at hc
  | cons x cs ih =>
    intro init c hc
    rw [pickBest_cons]
    rcases List.mem_cons.mp hc with rfl | hmem
    · refine le_trans ?_ (pickBest_init_le cs _)
      by_cases h : init.confidence < c.confidence
      · rw [if_pos h]
      · rw [if_neg h]; omega
    · exact ih _ c hmem

theorem pickBest_argmax (cs : List FlipResult) :
    ∀ init : FlipResult, pickBest init cs = init ∨
      ∃ i, i < cs.length ∧ cs.getD i emptyFlip = pickBest init cs ∧
        init.confidence < (pickBest init cs).confidence ∧
        ∀ j, j < i → (cs.getD j emptyFlip).confidence < (pickBest init cs).confidence := by
  induction cs with
  | nil => intro init; left; rfl
  | cons c cs ih =>
    intro init
    rw [pickBest_cons]
    by_cases h : init.confidence < c.confidence
    · rw [if_pos h]
      rcases ih c with heq | hex
      · right
        refine ⟨0, by simp, ?_, ?_, ?_⟩
        · rw [heq]; rfl
        · rw [heq]; exact h
        · intro j hj; omega
      · obtain ⟨i, hi, hget, hlt, hbef⟩ := hex
        right
        refine ⟨i + 1, by simpa using Nat.succ_lt_succ hi, by simpa using hget,
          lt_trans h hlt, ?_⟩
        intro j hj
        cases j with
        | zero => simpa using hlt
        | succ k => simpa using hbef k (by omega)
    · rw [if_neg h]
      rcases ih init with heq | hex
      · left; exact heq
      · obtain ⟨i, hi, hget, hlt, hbef⟩ := hex
        right
        refine ⟨i + 1, by simpa using Nat.succ_lt_succ hi, by simpa using hget, hlt, ?_⟩
        intro j hj
        cases j with
        | zero =>
          have hle : c.confidence ≤ init.confidence := Nat.le_of_not_lt h
          simpa using lt_of_le_of_lt hle hlt
        | succ k => simpa using hbef k (by omega)

theorem flipStep_eq_pickBest (df : List Candle) (acc : FlipResult) (sr : SRLevel) :
    flipStep df acc sr = pickBest acc (levelCandidates df sr) := by
  unfold flipStep levelCandidates
  by_cases hd : abs (currentCloseOf df - sr.level) / sr.level > flip_threshold
  · rw [if_pos hd, if_pos hd]; rfl
  · rw [if_neg hd, if_neg hd]
    by_cases hb : bullCondHolds df sr <;> by_cases hr : bearCondHolds df sr <;>
      simp [hb, hr, pickBest, bullFlipOf, bearFlipOf]

theorem foldl_flipStep_eq (df : List Candle) :
    ∀ (ls : List SRLevel) (acc : FlipResult),
      ls.foldl (flipStep df) acc = pickBest acc (ls.flatMap (levelCandidates df)) := by
  intro ls
  induction ls with
  | nil => intro acc; rfl
  | cons x ls ih =>
    intro acc
    rw [List.foldl_cons, ih, List.flatMap_cons, pickBest_append, flipStep_eq_pickBest]

theorem detect_eq_pickBest (df : List Candle) (levels : List SRLevel) :
    detect_sr_flip df levels = pickBest emptyFlip (flipCandidates df levels) := by
  unfold detect_sr_flip flipCandidates
  split_ifs with h
  · rfl
  · exact foldl_flipStep_eq df levels emptyFlip

theorem mem_levelCandidates (df : List Candle) (sr : SRLevel) (c : FlipResult)
    (hc : c ∈ levelCandidates df sr) :
    abs (currentCloseOf df - sr.level) / sr.level ≤ flip_threshold ∧
      ((c = bullFlipOf sr ∧ bullCondHolds df sr = true) ∨
       (c = bearFlipOf sr ∧ bearCondHolds df sr = true)) := by
  unfold levelCandidates at hc
  split_ifs at hc with h1 hb hr hr2
  · simp at hc
  · refine ⟨not_lt.mp h1, ?_⟩
    rcases List.mem_append.mp hc with hl | hl
    · left; exact ⟨by simpa using hl, hb⟩
    · right; exact ⟨by simpa using hl, hr⟩
  · refine ⟨not_lt.mp h1, ?_⟩
    left
    exact ⟨by simpa using hc, hb⟩
  · refine ⟨not_lt.mp h1, ?_⟩
    right
    exact ⟨by simpa using hc, hr2⟩
  · simp at hc

theorem detect_ne_empty_mem (df : List Candle) (levels : List SRLevel)
    (h : detect_sr_flip df levels ≠ emptyFlip) :
    detect_sr_flip df levels ∈ flipCandidates df levels := by
  rcases pickBest_argmax (flipCandidates df levels) emptyFlip with h0 | hex
  · exact absurd ((detect_eq_pickBest df levels).trans h0) h
  · obtain ⟨i, hi, hget, _, _⟩ := hex
    rw [detect_eq_pickBest, ← hget]
    rw [List.getD_eq_getElem _ _ hi]
    exact List.getElem_mem hi

theorem mem_flipCandidates_exists (df : List Candle) (levels : List SRLevel)
    (c : FlipResult) (hc : c ∈ flipCandidates df levels) :
    ∃ sr ∈ levels, c ∈ levelCandidates df sr := by
  unfold flipCandidates at hc
  split_ifs at hc with h
  · simp at hc
  · exact List.mem_flatMap.mp hc

theorem mem_insertDesc {x a : SRLevel} :
    ∀ {l : List SRLevel}, x ∈ insertDesc a l → x = a ∨ x ∈ l := by
  intro l
  induction l with
  | nil => intro h; simpa [insertDesc] using h
  | cons y ys ih =>
    intro h
    unfold insertDesc at h
    split_ifs at h
    · exact List.mem_cons.mp h
    · rcases List.mem_cons.mp h with rfl | h2
      · right; exact List.mem_cons_self _ _
      · rcases ih h2 with rfl | h3
        · left; rfl
        · right; exact List.mem_cons_of_mem _ h3

theorem mem_sortByStrengthDesc {x : SRLevel} :
    ∀ {l : List SRLevel}, x ∈ sortByStrengthDesc l → x ∈ l := by
  intro l
  induction l with
  | nil => intro h; simp [sortByStrengthDesc] at h
  | cons a l ih =>
    intro h
    have h2 : x ∈ insertDesc a (sortByStrengthDesc l) := h
    rcases mem_insertDesc h2 with rfl | h3
    · exact List.mem_cons_self _ _
    · exact List.mem_cons_of_mem _ (ih h3)

theorem find_sr_levels_strength (df : List Candle) (lookback : ℕ)
    (cluster_threshold : ℚ) (min_touches : ℕ) :
    ∀ sr ∈ find_sr_levels df lookback cluster_threshold min_touches,
      min_touches ≤ sr.strength := by
  intro sr hsr
  simp only [find_sr_levels] at hsr
  split_ifs at hsr with h
  · simp at hsr
  · have h2 := mem_sortByStrengthDesc hsr
    obtain ⟨cl, hcl, heq⟩ := List.mem_filterMap.mp h2
    split_ifs at heq with hlen
    all_goals try replace heq := Option.some.inj heq
    all_goals try simp at heq
    all_goals rw [← heq]
    all_goals exact Nat.le_of_not_lt hlen

/-- C3 refuted as stated: on a series where two qualifying levels produce
bullish flips of equal confidence, `detect_sr_flip` keeps the flip of the
level evaluated FIRST, not the one evaluated later (the replacement test
is strict). -/
theorem C3_counterexample :
    flipCandidates df3 [srA, srB] = [bullFlipOf srA, bullFlipOf srB] ∧
    (bullFlipOf srA).confidence = (bullFlipOf srB).confidence ∧
    detect_sr_flip df3 [srA, srB] = bullFlipOf srA ∧
    bullFlipOf srA ≠ bullFlipOf srB := by
  with_unfolding_all decide

/-- C3 (amended): across all qualifying levels `detect_sr_flip` keeps a
flip of maximal confidence, and when several qualifying flips tie at that
confidence it keeps the one from the level evaluated EARLIEST in the
strength-sorted list: the kept flip sits at an index all of whose strict
predecessors have strictly lower confidence. -/
theorem C3_flip_selection :
    ∀ (df : List Candle) (levels : List SRLevel),
      (∀ c ∈ flipCandidates df levels,
        c.confidence ≤ (detect_sr_flip df levels).confidence) ∧
      (detect_sr_flip df levels = emptyFlip ∨
        ∃ i, i < (flipCandidates df levels).length ∧
          (flipCandidates df levels).getD i emptyFlip = detect_sr_flip df levels ∧
          ∀ j, j < i → ((flipCandidates df levels).getD j emptyFlip).confidence <
            (detect_sr_flip df levels).confidence) := by
  intro df levels
  rw [detect_eq_pickBest]
  refine ⟨pickBest_mem_le _ _, ?_⟩
  rcases pickBest_argmax (flipCandidates df levels) emptyFlip with h0 | hex
  · left; exact h0
  · obtain ⟨i, hi, hget, _, hbef⟩ := hex
    right
    exact ⟨i, hi, hget, hbef⟩

/-- Witness for C3 (amended): on `df3` the later candidate is a
qualifying flip whose confidence does not exceed the kept one. -/
theorem C3_flip_selection_witness :
    bullFlipOf srB ∈ flipCandidates df3 [srA, srB] ∧
    (bullFlipOf srB).confidence ≤ (detect_sr_flip df3 [srA, srB]).confidence :=
  ⟨by with_unfolding_all decide,
    (C3_flip_selection df3 [srA, srB]).1 (bullFlipOf srB) (by with_unfolding_all decide)⟩

/-- C4 refuted as stated: `detect_sr_flip` reports a bullish flip on
`df4` although the minimum low of the last 3 candles (50) is nowhere near
within 1.5% relative distance of the level (100) — the source only checks
the one-sided bound `recent_low ≤ level·1.015`. -/
theorem C4_counterexample :
    (detect_sr_flip df4 [srA]).flip_detected = true ∧
    (detect_sr_flip df4 [srA]).flip_type = some FlipType.bullish ∧
    (detect_sr_flip df4 [srA]).level = some srA.level ∧
    recentLowOf df4 = 50 ∧
    ¬ (abs (recentLowOf df4 - srA.level) / srA.level ≤ flip_threshold) := by
  with_unfolding_all decide

/-- C4 (amended): a bullish flip is reported for a level only if, besides
the ≥2 high-touches, prior-close-below and current-close-above conditions
(and the level being within the threshold of the current close), the
minimum low of the last `confirmation` candles is AT MOST
`level·(1 + flipThreshold)` — a one-sided bound, not a two-sided relative
distance — and the current close exceeds that recent low. -/
theorem C4_bullish_flip_conditions :
    ∀ (df : List Candle) (levels : List SRLevel),
      (detect_sr_flip df levels).flip_type = some FlipType.bullish →
      ∃ sr, sr ∈ levels ∧
        detect_sr_flip df levels = bullFlipOf sr ∧
        abs (currentCloseOf df - sr.level) / sr.level ≤ flip_threshold ∧
        2 ≤ sr.high_touches ∧
        (∃ c ∈ previousClosesOf df, c < sr.level) ∧
        sr.level < currentCloseOf df ∧
        recentLowOf df ≤ sr.level * (1 + flip_threshold) ∧
        recentLowOf df < currentCloseOf df := by
  intro df levels h
  have hne : detect_sr_flip df levels ≠ emptyFlip := by
    intro he
    rw [he] at h
    simp [emptyFlip] at h
  obtain ⟨sr, hsr, hc⟩ :=
    mem_flipCandidates_exists df levels _ (detect_ne_empty_mem df levels hne)
  obtain ⟨hdist, hcase⟩ := mem_levelCandidates df sr _ hc
  rcases hcase with ⟨heq, hcond⟩ | ⟨heq, hcond⟩
  · simp only [bullCondHolds, Bool.and_eq_true, decide_eq_true_eq,
      List.any_eq_true] at hcond
    obtain ⟨⟨⟨⟨h1, h2⟩, h3⟩, h4⟩, h5⟩ := hcond
    refine ⟨sr, hsr, heq, hdist, h1, ?_, h3, h4, h5⟩
    obtain ⟨c, hcmem, hclt⟩ := h2
    exact ⟨c, hcmem, hclt⟩
  · rw [heq] at h
    simp [bearFlipOf] at h

/-- Witness for C4 (amended) at the `df4` series and its level. -/
theorem C4_bullish_flip_conditions_witness :
    (detect_sr_flip df4 [srA]).flip_type = some FlipType.bullish ∧
    ∃ sr, sr ∈ [srA] ∧
      detect_sr_flip df4 [srA] = bullFlipOf sr ∧
      abs (currentCloseOf df4 - sr.level) / sr.level ≤ flip_threshold ∧
      2 ≤ sr.high_touches ∧
      (∃ c ∈ previousClosesOf df4, c < sr.level) ∧
      sr.level < currentCloseOf df4 ∧
      recentLowOf df4 ≤ sr.level * (1 + flip_threshold) ∧
      recentLowOf df4 < currentCloseOf df4 :=
  ⟨by with_unfolding_all decide,
    C4_bullish_flip_conditions df4 [srA] (by with_unfolding_all decide)⟩

/-- C10: every level produced by `find_sr_levels` (min_touches = 2) has
strength at least 2, and consequently every flip `detect_sr_flip`
reports on those levels has confidence at least 80 — the nominal 0-100
range is never exercised below 80 for a detected flip. -/
theorem C10_flip_confidence_floor :
    ∀ df : List Candle,
      (∀ sr ∈ find_sr_levels df 100 (5/1000) 2, 2 ≤ sr.strength) ∧
      ((detect_sr_flip df (find_sr_levels df 100 (5/1000) 2)).flip_detected = true →
        80 ≤ (detect_sr_flip df (find_sr_levels df 100 (5/1000) 2)).confidence) := by
  intro df
  refine ⟨find_sr_levels_strength df 100 (5/1000) 2, fun h => ?_⟩
  have hne : detect_sr_flip df (find_sr_levels df 100 (5/1000) 2) ≠ emptyFlip := by
    intro he
    rw [he] at h
    simp [emptyFlip] at h
  obtain ⟨sr, hsr, hc⟩ :=
    mem_flipCandidates_exists df _ _ (detect_ne_empty_mem df _ hne)
  have hs : 2 ≤ sr.strength := find_sr_levels_strength df 100 (5/1000) 2 sr hsr
  have hval : 80 ≤ min 100 (sr.strength * 20 + 40) := le_min (by omega) (by omega)
  obtain ⟨_, hcase⟩ := mem_levelCandidates df sr _ hc
  rcases hcase with ⟨heq, _⟩ | ⟨heq, _⟩
  · rw [heq]; exact hval
  · rw [heq]; exact hval

/-- Witness for C10: the crafted `df10` series makes the full
`find_sr_levels`/`detect_sr_flip` pipeline report a flip, whose
confidence is then at least 80. -/
theorem C10_flip_confidence_floor_witness :
    (detect_sr_flip df10 (find_sr_levels df10 100 (5/1000) 2)).flip_detected = true ∧
    80 ≤ (detect_sr_flip df10 (find_sr_levels df10 100 (5/1000) 2)).confidence :=
  ⟨by with_unfolding_all decide,
    (C10_flip_confidence_floor df10).2 (by with_unfolding_all decide)⟩

end CryptoBot
